import Mathlib

/-!
Verification development for the ROI / signal-lifecycle tracker of the
GIO-Crypto-Bot repository.

The primary model follows `src/telegram_bot/roi_tracker.py` (the more complete
of the two `ROITracker` implementations: it carries the entry-price guards and
the database retry loop).  Where the sibling file
`src/trading/roi_tracker.py` differs in behaviour that a claim depends on
(the persistence retry discipline), a second definition embeds that file.

Python floats are modelled as rationals (`ℚ`); `datetime.now()` is modelled by
an explicit time parameter; the `aiosqlite` store is modelled by an abstract
outcome oracle for the retry-loop claims.
-/

namespace GioRoi

/-- One entry of `ROIMetrics.fills` (the dict appended by `_handle_tp_hit`
and `_handle_sl_hit`). -/
structure Fill where
  level : String
  price : ℚ
  percentage : ℚ
  profit_percent : ℚ
  weighted_profit : ℚ
  timestamp : ℚ
deriving Repr, DecidableEq

/-- The `ROIMetrics` dataclass of `roi_tracker.py`. -/
structure ROIMetrics where
  signal_id : String
  symbol : String
  direction : String
  entry_price : ℚ
  stop_loss : ℚ
  tp1 : ℚ
  tp2 : ℚ
  tp3 : ℚ
  tp1_hit : Bool := false
  tp2_hit : Bool := false
  tp3_hit : Bool := false
  sl_hit : Bool := false
  current_roi : ℚ := 0
  status : String := "active"
  entry_time : ℚ := 0
  close_time : Option ℚ := none
  fills : List Fill := []
  quality_score : ℚ := 0
deriving Repr, DecidableEq

/-- The event dictionaries returned by `update_signal_price`:
`{"type": "tp_hit", ...}`, `{"type": "sl_hit", ...}` and the
`{"type": "error", "reason": "entry_price_zero"}` dictionaries returned by the
handlers of `src/telegram_bot/roi_tracker.py` when `entry_price == 0`. -/
inductive Event where
  | tp_hit (signal_id : String) (level : String) (price : ℚ) (profit : ℚ)
  | sl_hit (signal_id : String) (price : ℚ) (loss : ℚ)
  | error_event (signal_id : String) (reason : String)
deriving Repr, DecidableEq

/-- The allocation split fixed in `ROITracker.__init__`
(`tp1_percentage = 0.25`, `tp2_percentage = 0.50`, `tp3_percentage = 0.25`). -/
structure AllocConfig where
  tp1_percentage : ℚ := 1/4
  tp2_percentage : ℚ := 1/2
  tp3_percentage : ℚ := 1/4
deriving Repr, DecidableEq

/-- The `closed_percent` sum computed identically in `_handle_sl_hit` and
`_calculate_current_roi`: allocations of the take-profit levels whose hit
flags are set. -/
def closed_percent (cfg : AllocConfig) (m : ROIMetrics) : ℚ :=
  (if m.tp1_hit then cfg.tp1_percentage else 0) +
  (if m.tp2_hit then cfg.tp2_percentage else 0) +
  (if m.tp3_hit then cfg.tp3_percentage else 0)

/-- `sum([fill["weighted_profit"] for fill in metrics.fills])`. -/
def closed_roi (m : ROIMetrics) : ℚ :=
  (m.fills.map Fill.weighted_profit).sum

/-- `ROITracker._calculate_current_roi` of `src/telegram_bot/roi_tracker.py`
(the variant with the `entry_price == 0` short-circuit). -/
def calculate_current_roi (cfg : AllocConfig) (m : ROIMetrics)
    (current_price : ℚ) : ℚ :=
  let closedRoi := closed_roi m
  let remaining := 1 - closed_percent cfg m
  if 0 < remaining then
    if m.entry_price = 0 then
      closedRoi
    else
      let unrealized_profit :=
        if m.direction = "long" then
          (current_price - m.entry_price) / m.entry_price * 100
        else
          (m.entry_price - current_price) / m.entry_price * 100
      closedRoi + unrealized_profit * remaining
  else
    closedRoi + 0

/-- Python division: raises `ZeroDivisionError` on a zero divisor. -/
def pydiv (a b : ℚ) : Except String ℚ :=
  if b = 0 then Except.error "ZeroDivisionError" else Except.ok (a / b)

/-- `ROITracker._calculate_current_roi` of `src/trading/roi_tracker.py`
(lines 336-363): the same computation but with no `entry_price == 0` guard,
so the division `(price - entry) / entry` is reached — and raises — whenever
the remaining open fraction is positive. -/
def calculate_current_roi_trading (cfg : AllocConfig) (m : ROIMetrics)
    (current_price : ℚ) : Except String ℚ :=
  let closedRoi := closed_roi m
  let remaining := 1 - closed_percent cfg m
  if 0 < remaining then
    match (if m.direction = "long" then
            pydiv (current_price - m.entry_price) m.entry_price
          else
            pydiv (m.entry_price - current_price) m.entry_price) with
    | Except.error e => Except.error e
    | Except.ok q => Except.ok (closedRoi + q * 100 * remaining)
  else
    Except.ok (closedRoi + 0)

/-- `ROITracker._close_signal` restricted to the metrics record: set the
status, the close time and the final ROI (the moves between the tracker's
collections are modelled in `update_signal_price`). -/
def close_signal (now : ℚ) (m : ROIMetrics) (status : String) : ROIMetrics :=
  let m1 := { m with status := status, close_time := some now }
  { m1 with current_roi := closed_roi m1 }

/-- `ROITracker._handle_tp_hit` of `src/telegram_bot/roi_tracker.py`.
The caller has already set the corresponding hit flag on `m`. -/
def handle_tp_hit (cfg : AllocConfig) (now : ℚ) (m : ROIMetrics)
    (tp_level : String) (price : ℚ) : ROIMetrics × Event :=
  let close_pct :=
    if tp_level = "tp1" then cfg.tp1_percentage
    else if tp_level = "tp2" then cfg.tp2_percentage
    else cfg.tp3_percentage
  if m.entry_price = 0 then
    (m, Event.error_event m.signal_id "entry_price_zero")
  else
    let profit_percent :=
      if m.direction = "long" then
        (price - m.entry_price) / m.entry_price * 100
      else
        (m.entry_price - price) / m.entry_price * 100
    let weighted := profit_percent * close_pct
    let fill : Fill :=
      { level := tp_level, price := price, percentage := close_pct,
        profit_percent := profit_percent, weighted_profit := weighted,
        timestamp := now }
    let m1 := { m with fills := m.fills ++ [fill] }
    let m2 :=
      if tp_level = "tp3" ∨
          (m1.tp1_hit = true ∧ m1.tp2_hit = true ∧ m1.tp3_hit = true) then
        close_signal now m1 "completed"
      else
        m1
    (m2, Event.tp_hit m.signal_id tp_level price weighted)

/-- `ROITracker._handle_sl_hit` of `src/telegram_bot/roi_tracker.py`.
The caller has already set `sl_hit` on `m` (`closed_percent` reads only the
take-profit flags, so this does not affect the remaining fraction). -/
def handle_sl_hit (cfg : AllocConfig) (now : ℚ) (m : ROIMetrics)
    (price : ℚ) : ROIMetrics × Event :=
  if m.entry_price = 0 then
    (m, Event.error_event m.signal_id "entry_price_zero")
  else
    let loss_percent :=
      if m.direction = "long" then
        (price - m.entry_price) / m.entry_price * 100
      else
        (m.entry_price - price) / m.entry_price * 100
    let remaining := 1 - closed_percent cfg m
    let weighted := loss_percent * remaining
    let fill : Fill :=
      { level := "stop_loss", price := price, percentage := remaining,
        profit_percent := loss_percent, weighted_profit := weighted,
        timestamp := now }
    let m1 := { m with fills := m.fills ++ [fill] }
    (close_signal now m1 "stopped", Event.sl_hit m.signal_id price weighted)

/-- The body of `ROITracker.update_signal_price` acting on one `ROIMetrics`
record (the priority chain of threshold checks, the handler call, and the
final `current_roi` recomputation that runs even after `_close_signal`). -/
def update_metrics_price (cfg : AllocConfig) (now : ℚ) (price : ℚ)
    (m : ROIMetrics) : ROIMetrics × Option Event :=
  let r :=
    if m.direction = "long" then
      if m.tp3_hit = false ∧ m.tp3 ≤ price then
        let h := handle_tp_hit cfg now { m with tp3_hit := true } "tp3" price
        (h.1, some h.2)
      else if m.tp2_hit = false ∧ m.tp2 ≤ price then
        let h := handle_tp_hit cfg now { m with tp2_hit := true } "tp2" price
        (h.1, some h.2)
      else if m.tp1_hit = false ∧ m.tp1 ≤ price then
        let h := handle_tp_hit cfg now { m with tp1_hit := true } "tp1" price
        (h.1, some h.2)
      else if m.sl_hit = false ∧ price ≤ m.stop_loss then
        let h := handle_sl_hit cfg now { m with sl_hit := true } price
        (h.1, some h.2)
      else
        (m, (none : Option Event))
    else if m.direction = "short" then
      if m.tp3_hit = false ∧ price ≤ m.tp3 then
        let h := handle_tp_hit cfg now { m with tp3_hit := true } "tp3" price
        (h.1, some h.2)
      else if m.tp2_hit = false ∧ price ≤ m.tp2 then
        let h := handle_tp_hit cfg now { m with tp2_hit := true } "tp2" price
        (h.1, some h.2)
      else if m.tp1_hit = false ∧ price ≤ m.tp1 then
        let h := handle_tp_hit cfg now { m with tp1_hit := true } "tp1" price
        (h.1, some h.2)
      else if m.sl_hit = false ∧ m.stop_loss ≤ price then
        let h := handle_sl_hit cfg now { m with sl_hit := true } price
        (h.1, some h.2)
      else
        (m, (none : Option Event))
    else
      (m, (none : Option Event))
  ({ r.1 with current_roi := calculate_current_roi cfg r.1 price }, r.2)

/-- Lookup in the `active_signals` dictionary, modelled as an association
list. -/
def lookupA (l : List (String × ROIMetrics)) (k : String) :
    Option ROIMetrics :=
  match l with
  | [] => none
  | (k', v) :: rest => if k' = k then some v else lookupA rest k

/-- Removal of a key (`del self.active_signals[...]`). -/
def eraseA (l : List (String × ROIMetrics)) (k : String) :
    List (String × ROIMetrics) :=
  l.filter (fun p => p.1 != k)

/-- Dictionary assignment `self.active_signals[signal_id] = metrics`. -/
def insertA (l : List (String × ROIMetrics)) (k : String) (v : ROIMetrics) :
    List (String × ROIMetrics) :=
  (k, v) :: eraseA l k

/-- The fields of the signal dictionary consumed by `register_signal`:
`tp1`, `tp2`, `tp3` and `quality_score` are read with `.get(key, 0)`, so they
may be absent. -/
structure SignalDef where
  symbol : String
  direction : String
  entry_price : ℚ
  stop_loss : ℚ
  tp1 : Option ℚ := none
  tp2 : Option ℚ := none
  tp3 : Option ℚ := none
  quality_score : Option ℚ := none
deriving Repr, DecidableEq

/-- The mutable state of a `ROITracker` instance. -/
structure Tracker where
  active_signals : List (String × ROIMetrics) := []
  completed_signals : List ROIMetrics := []
  cfg : AllocConfig := {}
deriving Repr, DecidableEq

/-- `ROITracker.register_signal`: build the metrics record (missing targets
default to `0`), put it into the active map, return the id.  No validation of
any kind is performed. -/
def register_signal (t : Tracker) (now : ℤ) (signal : SignalDef) :
    Tracker × String :=
  let signal_id := signal.symbol ++ "_" ++ toString now
  let metrics : ROIMetrics :=
    { signal_id := signal_id, symbol := signal.symbol,
      direction := signal.direction, entry_price := signal.entry_price,
      stop_loss := signal.stop_loss,
      tp1 := signal.tp1.getD 0, tp2 := signal.tp2.getD 0,
      tp3 := signal.tp3.getD 0,
      quality_score := signal.quality_score.getD 0,
      entry_time := (now : ℚ) }
  ({ t with active_signals := insertA t.active_signals signal_id metrics },
    signal_id)

/-- `ROITracker.update_signal_price` at the tracker level: unknown ids return
`None` untouched; a close performed by the handlers moves the (subsequently
still mutated, because aliased) record into `completed_signals` and drops it
from `active_signals`. -/
def update_signal_price (t : Tracker) (now : ℚ) (signal_id : String)
    (current_price : ℚ) : Tracker × Option Event :=
  match lookupA t.active_signals signal_id with
  | none => (t, none)
  | some m =>
    let r := update_metrics_price t.cfg now current_price m
    if r.1.status = "active" then
      ({ t with active_signals := insertA t.active_signals signal_id r.1 },
        r.2)
    else
      let t' := { t with
        active_signals := eraseA t.active_signals signal_id
        completed_signals := t.completed_signals ++ [r.1] }
      (t', r.2)

/-- The dictionary returned by `get_statistics`.  The empty-window early
return of the source carries only `total_signals`, `win_rate`, `average_roi`
and `total_roi`; the remaining keys are absent, which the model renders as
`none`. -/
structure StatsResult where
  total_signals : ℕ
  wins : Option ℕ := none
  losses : Option ℕ := none
  win_rate : ℚ
  average_roi : ℚ
  total_roi : ℚ
  period_days : Option ℕ := none
deriving Repr, DecidableEq

/-- The `recent_signals` list comprehension of `get_statistics`: completed
signals with a close time strictly later than `now - timedelta(days=days)`
(times are measured in days). -/
def recent_completed (t : Tracker) (now : ℚ) (days : ℕ) :
    List ROIMetrics :=
  let cutoff := now - (days : ℚ)
  t.completed_signals.filter (fun s =>
    match s.close_time with
    | some ct => decide (cutoff < ct)
    | none => false)

/-- `ROITracker.get_statistics`. -/
def get_statistics (t : Tracker) (now : ℚ) (days : ℕ) : StatsResult :=
  if recent_completed t now days = [] then
    { total_signals := 0, win_rate := 0, average_roi := 0, total_roi := 0 }
  else
    let recent := recent_completed t now days
    let total := recent.length
    let wins := (recent.filter (fun s => decide (0 < s.current_roi))).length
    let losses :=
      (recent.filter (fun s => decide (s.current_roi ≤ 0))).length
    let roiSum := (recent.map ROIMetrics.current_roi).sum
    { total_signals := total, wins := some wins, losses := some losses,
      win_rate := if 0 < total then ((wins : ℚ) / (total : ℚ)) * 100 else 0,
      average_roi := roiSum / (total : ℚ),
      total_roi := roiSum,
      period_days := some days }

/-- One polling tick against a single signal, as the tracker performs it: a
record that has left the active map (equivalently, whose status is no longer
`"active"`) is not touched again. -/
def step_metrics (cfg : AllocConfig) (m : ROIMetrics) (price : ℚ) :
    ROIMetrics × Option Event :=
  if m.status = "active" then update_metrics_price cfg 0 price m
  else (m, none)

/-- Feed a price path tick by tick into `update_signal_price`'s evaluator,
collecting the produced events. -/
def run_path (cfg : AllocConfig) (m : ROIMetrics) :
    List ℚ → ROIMetrics × List Event
  | [] => (m, [])
  | p :: ps =>
    let r := step_metrics cfg m p
    let rest := run_path cfg r.1 ps
    (rest.1, (match r.2 with | some e => [e] | none => []) ++ rest.2)

/-- Sum of the `percentage` fields over a signal's fills. -/
def fills_percentage_sum (m : ROIMetrics) : ℚ :=
  (m.fills.map Fill.percentage).sum

/-- The level string a produced event is about (`"stop_loss"` for stop
events, the `level` field for take-profit events). -/
def event_tag : Event → String
  | Event.tp_hit _ l _ _ => l
  | Event.sl_hit _ _ _ => "stop_loss"
  | Event.error_event _ _ => "error"

/-! ### The `_update_signal_in_db` persistence layer

`src/telegram_bot/roi_tracker.py` retries a `"database is locked"`
`OperationalError` with delay `retry_delay * 2 ** attempt` for up to
`max_retries = 10` attempts; `src/trading/roi_tracker.py` performs a single
attempt inside a bare `try/except`.  The store is abstracted as an oracle
from the attempt index to an outcome; both embeddings return the (untouched)
in-memory metrics, whether the update committed, the number of attempts made
and the list of backoff delays slept. -/

/-- Outcome of one store write: success, the `"database is locked"`
`OperationalError`, or any other exception. -/
inductive DbOutcome where
  | ok
  | locked
  | other_error
deriving Repr, DecidableEq

/-- `max_retries = 10` in `src/telegram_bot/roi_tracker.py`. -/
def max_retries : ℕ := 10

/-- `retry_delay = 0.2` in `src/telegram_bot/roi_tracker.py`. -/
def retry_delay : ℚ := 1/5

/-- The `for attempt in range(max_retries)` loop of the telegram tracker's
`_update_signal_in_db`: on `locked` with attempts remaining it sleeps
`retry_delay * 2 ** attempt` and continues; otherwise it logs and stops. -/
def update_db_loop (store : ℕ → DbOutcome) : ℕ → ℕ → Bool × ℕ × List ℚ
  | _, 0 => (false, 0, [])
  | attempt, fuel + 1 =>
    match store attempt with
    | DbOutcome.ok => (true, 1, [])
    | DbOutcome.locked =>
      if attempt < max_retries - 1 then
        let r := update_db_loop store (attempt + 1) fuel
        (r.1, r.2.1 + 1, retry_delay * 2 ^ attempt :: r.2.2)
      else
        (false, 1, [])
    | DbOutcome.other_error => (false, 1, [])

/-- `ROITracker._update_signal_in_db` of `src/telegram_bot/roi_tracker.py`. -/
def update_signal_in_db_telegram (m : ROIMetrics) (store : ℕ → DbOutcome) :
    ROIMetrics × Bool × ℕ × List ℚ :=
  (m, update_db_loop store 0 max_retries)

/-- `ROITracker._update_signal_in_db` of `src/trading/roi_tracker.py`: a
single attempt inside `try/except`, no retry, no backoff. -/
def update_signal_in_db_trading (m : ROIMetrics) (store : ℕ → DbOutcome) :
    ROIMetrics × Bool × ℕ × List ℚ :=
  match store 0 with
  | DbOutcome.ok => (m, true, 1, [])
  | DbOutcome.locked => (m, false, 1, [])
  | DbOutcome.other_error => (m, false, 1, [])

/-! ### Sample data used by the concrete counterexamples and witnesses -/

/-- A well-formed LONG signal: `stop 90 < entry 100 < tp1 110 < tp2 120 <
tp3 130`. -/
def sample_long : ROIMetrics :=
  { signal_id := "BTCUSDT_1", symbol := "BTCUSDT", direction := "long",
    entry_price := 100, stop_loss := 90, tp1 := 110, tp2 := 120, tp3 := 130 }

/-- A LONG signal with `entry_price = 0` (the data-integrity corner the
handlers guard against). -/
def sample_zero_entry : ROIMetrics :=
  { signal_id := "ZERO_1", symbol := "ZERO", direction := "long",
    entry_price := 0, stop_loss := 10, tp1 := 80, tp2 := 90, tp3 := 100 }

/-- The default allocation configuration (25% / 50% / 25%). -/
def default_cfg : AllocConfig := {}

/-- A definition violating every registration invariant of the claim: LONG
with `entry_price = 0` (not strictly positive) and `stop_loss = 150` above
the entry (wrong ordering). -/
def bad_def : SignalDef :=
  { symbol := "BTCUSDT", direction := "long", entry_price := 0,
    stop_loss := 150, tp1 := some 110, tp2 := some 120, tp3 := some 130 }

/-- A completed LONG signal used by the statistics witnesses: closed with a
positive final ROI at time `0`. -/
def sample_completed : ROIMetrics :=
  { sample_long with status := "completed", close_time := some 0,
                     current_roi := 5 }

/-- A tracker whose completed archive holds exactly `sample_completed`. -/
def sample_tracker_stats : Tracker :=
  { completed_signals := [sample_completed] }

/-! ### Claim C1 — at most one threshold event, in fixed priority order -/

/-- The four threshold levels. -/
inductive ThresholdLevel where
  | tp1
  | tp2
  | tp3
  | stop
deriving Repr, DecidableEq

/-- The spec-side selection rule, written from the claim's words: the
highest-priority level whose hit flag is not yet set and whose price
condition holds (LONG: TP3 if `price ≥ tp3`, else TP2, else TP1, else STOP
if `price ≤ stop_loss`; comparisons mirrored for SHORT); `none` when no such
level exists.  To be compared with the behaviour of
`update_signal_price`. -/
def spec_first_eligible (m : ROIMetrics) (price : ℚ) :
    Option ThresholdLevel :=
  if m.direction = "long" then
    if m.tp3_hit = false ∧ m.tp3 ≤ price then some ThresholdLevel.tp3
    else if m.tp2_hit = false ∧ m.tp2 ≤ price then some ThresholdLevel.tp2
    else if m.tp1_hit = false ∧ m.tp1 ≤ price then some ThresholdLevel.tp1
    else if m.sl_hit = false ∧ price ≤ m.stop_loss then
      some ThresholdLevel.stop
    else none
  else if m.direction = "short" then
    if m.tp3_hit = false ∧ price ≤ m.tp3 then some ThresholdLevel.tp3
    else if m.tp2_hit = false ∧ price ≤ m.tp2 then some ThresholdLevel.tp2
    else if m.tp1_hit = false ∧ price ≤ m.tp1 then some ThresholdLevel.tp1
    else if m.sl_hit = false ∧ m.stop_loss ≤ price then
      some ThresholdLevel.stop
    else none
  else none

/-- The threshold level an event reports (`none` for the `error`
dictionaries, which are not threshold events). -/
def threshold_of_event : Event → Option ThresholdLevel
  | Event.tp_hit _ "tp1" _ _ => some ThresholdLevel.tp1
  | Event.tp_hit _ "tp2" _ _ => some ThresholdLevel.tp2
  | Event.tp_hit _ "tp3" _ _ => some ThresholdLevel.tp3
  | Event.tp_hit _ _ _ _ => none
  | Event.sl_hit _ _ _ => some ThresholdLevel.stop
  | Event.error_event _ _ => none

/-- Threshold level of an optional event. -/
def threshold_of (ev : Option Event) : Option ThresholdLevel :=
  ev.bind threshold_of_event

/-- A tracker holding the fresh `sample_long` under its id. -/
def sample_tracker_active : Tracker :=
  { active_signals := insertA [] "BTCUSDT_1" sample_long }

/-! ### Claim C10 — missing targets default to zero -/

/-- A LONG definition supplying no `tp1`/`tp2`/`tp3` keys, with a nonzero
entry price. -/
def no_targets_def : SignalDef :=
  { symbol := "XRPUSDT", direction := "long", entry_price := 2,
    stop_loss := 1 }

/-- A LONG definition supplying no target keys and `entry_price = 0`. -/
def no_targets_zero_def : SignalDef :=
  { symbol := "XRPUSDT", direction := "long", entry_price := 0,
    stop_loss := 1 }

/-- The registration of `no_targets_zero_def` into an empty tracker. -/
def reg_zero : Tracker × String := register_signal {} 0 no_targets_zero_def

/-! ### Claim C2 — the fill-fraction invariant -/

/-- The inductive invariant tying a signal's fills to its hit flags: while
the stop has not fired the fill fractions sum to the allocations of the hit
take-profit levels; once it fires they sum to `1` and the signal is
`"stopped"` (and `"stopped"` is reached only through the stop). -/
def fills_inv (cfg : AllocConfig) (m : ROIMetrics) : Prop :=
  m.entry_price ≠ 0 ∧
  (m.sl_hit = false → fills_percentage_sum m = closed_percent cfg m) ∧
  (m.sl_hit = true → fills_percentage_sum m = 1 ∧ m.status = "stopped") ∧
  (m.status = "stopped" → m.sl_hit = true)

/-! ### Generic lemmas about the association-list dictionary -/

theorem lookupA_insertA_self (l : List (String × ROIMetrics)) (k : String)
    (v : ROIMetrics) : lookupA (insertA l k v) k = some v := by
  simp [insertA, lookupA]

theorem lookupA_eraseA_self (l : List (String × ROIMetrics)) (k : String) :
    lookupA (eraseA l k) k = none := by
  induction l with
  | nil => rfl
  | cons a rest ih =>
    by_cases h : a.1 = k
    · simpa [eraseA, List.filter_cons, h] using ih
    · have hb : (a.1 != k) = true := by simpa using h
      simpa [eraseA, List.filter_cons, hb, lookupA, h] using ih

/-! ### Claim C3 — registration performs no validation -/

/-- Claim C3, counterexample: the definition `bad_def` violates both the
price-ordering invariant (`stop_loss = 150 > entry_price`) and positivity
(`entry_price = 0`), yet `register_signal` raises nothing and the signal is
present in the active set immediately after registration — refuting
"rejects any definition violating them ... never adding it to the active
set". -/
theorem register_signal_accepts_invalid_counterexample :
    bad_def.entry_price = 0 ∧ bad_def.direction = "long" ∧
    bad_def.entry_price < bad_def.stop_loss ∧
    (lookupA ((register_signal {} 0 bad_def).1.active_signals)
        ((register_signal {} 0 bad_def).2)).isSome = true := by
  refine ⟨rfl, rfl, by norm_num [bad_def], ?_⟩
  rw [register_signal]
  simp [lookupA_insertA_self]

/-- Claim C3 (amended): `register_signal` performs no validation at all —
every definition, including one with an invalid price ordering or a
non-positive entry price, is turned into a metrics record, stored in the
active set under the returned id, and marked `"active"`. -/
theorem register_signal_never_rejects (t : Tracker) (now : ℤ)
    (signal : SignalDef) :
    lookupA ((register_signal t now signal).1.active_signals)
        ((register_signal t now signal).2) =
      some { signal_id := signal.symbol ++ "_" ++ toString now,
             symbol := signal.symbol, direction := signal.direction,
             entry_price := signal.entry_price,
             stop_loss := signal.stop_loss,
             tp1 := signal.tp1.getD 0, tp2 := signal.tp2.getD 0,
             tp3 := signal.tp3.getD 0,
             quality_score := signal.quality_score.getD 0,
             entry_time := (now : ℚ) } := by
  rw [register_signal]
  simp [lookupA_insertA_self]

/-! ### Claim C4 — zero entry price and the ROI recomputation -/

/-- Claim C4, counterexample: `sample_zero_entry` has `entry_price = 0` and
a fully open position, and recomputing its ROI in
`src/trading/roi_tracker.py` — whose `_calculate_current_roi` has no
zero-entry guard — reaches the division `(price - entry) / entry` and
raises `ZeroDivisionError` instead of returning the fills' contribution
sum — refuting "recomputing current_roi never performs a division by zero"
for one of the two cited implementations. -/
theorem trading_roi_zero_entry_division_counterexample :
    sample_zero_entry.entry_price = 0 ∧
    calculate_current_roi_trading default_cfg sample_zero_entry 7 =
      Except.error "ZeroDivisionError" ∧
    calculate_current_roi_trading default_cfg sample_zero_entry 7 ≠
      Except.ok
        ((sample_zero_entry.fills.map Fill.weighted_profit).sum) := by
  have he : calculate_current_roi_trading default_cfg sample_zero_entry 7 =
      Except.error "ZeroDivisionError" := by
    norm_num [calculate_current_roi_trading, pydiv, closed_roi,
      closed_percent, sample_zero_entry, default_cfg]
  refine ⟨rfl, he, ?_⟩
  rw [he]
  exact fun hx => Except.noConfusion hx

/-- Claim C4 (amended): for a signal with `entry_price = 0`, the
telegram_bot tracker's `_calculate_current_roi` short-circuits before any
division and returns exactly the sum of the fills' weighted contributions
(`0` if there are none), for every current price; the trading tracker's
variant, which lacks the guard, returns that same sum only when the open
fraction is zero, and raises `ZeroDivisionError` whenever the open fraction
is positive. -/
theorem zero_entry_roi_short_circuit :
    (∀ (cfg : AllocConfig) (m : ROIMetrics) (price : ℚ),
      m.entry_price = 0 →
      calculate_current_roi cfg m price =
        (m.fills.map Fill.weighted_profit).sum) ∧
    (∀ (cfg : AllocConfig) (m : ROIMetrics) (price : ℚ),
      m.entry_price = 0 → 1 - closed_percent cfg m ≤ 0 →
      calculate_current_roi_trading cfg m price =
        Except.ok ((m.fills.map Fill.weighted_profit).sum)) ∧
    (∀ (cfg : AllocConfig) (m : ROIMetrics) (price : ℚ),
      m.entry_price = 0 → 0 < 1 - closed_percent cfg m →
      calculate_current_roi_trading cfg m price =
        Except.error "ZeroDivisionError") := by
  refine ⟨fun cfg m price h => ?_, fun cfg m price h hle => ?_,
    fun cfg m price h hpos => ?_⟩
  · rw [calculate_current_roi]
    simp only [h, closed_roi]
    split_ifs <;> simp
  · rw [calculate_current_roi_trading]
    rw [if_neg (not_lt.mpr hle)]
    simp [closed_roi]
  · rw [calculate_current_roi_trading]
    rw [if_pos hpos]
    simp [pydiv, h]

/-- Claim C4, witness: on the zero-entry signal `sample_zero_entry` (no
fills, fully open) the telegram recomputation returns the empty
contribution sum while the trading recomputation raises. -/
theorem zero_entry_roi_short_circuit_witness :
    calculate_current_roi default_cfg sample_zero_entry 7 =
      (sample_zero_entry.fills.map Fill.weighted_profit).sum ∧
    calculate_current_roi_trading default_cfg sample_zero_entry 7 =
      Except.error "ZeroDivisionError" :=
  ⟨zero_entry_roi_short_circuit.1 default_cfg sample_zero_entry 7 rfl,
   zero_entry_roi_short_circuit.2.2 default_cfg sample_zero_entry 7 rfl
     (by norm_num [closed_percent, sample_zero_entry, default_cfg])⟩

/-! ### Claim C9 — unknown ids are a strict no-op -/

/-- Claim C9: for a `signal_id` absent from the active map (in particular
one already retired to the completed archive), `update_signal_price` returns
`None` and the whole tracker state — active map, completed archive, every
record's flags, fills, status and ROI — is returned unchanged. -/
theorem update_signal_price_unknown_id (t : Tracker) (now : ℚ)
    (signal_id : String) (price : ℚ)
    (h : lookupA t.active_signals signal_id = none) :
    update_signal_price t now signal_id price = (t, none) := by
  rw [update_signal_price, h]

/-- Claim C9, witness: an id that was just erased from the active map (as
`_close_signal` does when retiring a signal) is ignored by a subsequent
price update. -/
theorem update_signal_price_unknown_id_witness :
    update_signal_price
        { active_signals := eraseA (insertA [] "BTCUSDT_1" sample_long)
            "BTCUSDT_1",
          completed_signals := [sample_long] } 0 "BTCUSDT_1" 95 =
      ({ active_signals := eraseA (insertA [] "BTCUSDT_1" sample_long)
            "BTCUSDT_1",
         completed_signals := [sample_long] }, none) :=
  update_signal_price_unknown_id _ 0 "BTCUSDT_1" 95
    (lookupA_eraseA_self _ "BTCUSDT_1")

/-! ### Claim C6 — persistence retry discipline -/

/-- Claim C6, counterexample: in `src/trading/roi_tracker.py` (one of the
two cited `_update_signal_in_db` implementations) a persistently locked
store gets exactly one attempt and no backoff sleeps before the update is
dropped — refuting "is retried with exponentially increasing delay ... up
to a bounded maximum attempt count (default 10)" for that tracker. -/
theorem update_db_trading_no_retry_counterexample :
    update_signal_in_db_trading sample_long (fun _ => DbOutcome.locked) =
      (sample_long, false, 1, []) := rfl

/-- Claim C6 (amended): the telegram tracker's `_update_signal_in_db`
retries a persistently `"database is locked"` store exactly `10` times with
backoff delays `0.2 * 2 ^ attempt` for attempts `0..8`, then drops the
update, leaving the in-memory metrics unchanged; the trading tracker's
version always performs exactly one attempt (no retry, no delay) for every
store behaviour. -/
theorem update_db_retry_schedule (m : ROIMetrics) :
    update_signal_in_db_telegram m (fun _ => DbOutcome.locked) =
      (m, false, 10,
        [1/5, 2/5, 4/5, 8/5, 16/5, 32/5, 64/5, 128/5, 256/5]) ∧
    (∀ store : ℕ → DbOutcome,
      (update_signal_in_db_trading m store).1 = m ∧
      (update_signal_in_db_trading m store).2.2.1 = 1) := by
  constructor
  · rw [update_signal_in_db_telegram]
    norm_num [update_db_loop, max_retries, retry_delay]
  · intro store
    rw [update_signal_in_db_trading]
    rcases store 0 <;> simp

/-! ### Claim C8 — the statistics projection -/

theorem wins_add_losses (l : List ROIMetrics) :
    (l.filter (fun s => decide (0 < s.current_roi))).length +
      (l.filter (fun s => decide (s.current_roi ≤ 0))).length = l.length := by
  induction l with
  | nil => rfl
  | cons a rest ih =>
    by_cases h : 0 < a.current_roi
    · have h' : ¬ a.current_roi ≤ 0 := not_le.mpr h
      simp [List.filter_cons, h, h']
      omega
    · have h' : a.current_roi ≤ 0 := not_lt.mp h
      simp [List.filter_cons, h, h']
      omega

/-- Claim C8, counterexample: with no completed signal in the window,
`get_statistics` takes the early-return branch whose dictionary has no
`wins` and no `losses` keys at all (modelled as `none`) — refuting
"returns a record containing total, wins, losses, ... including when no
completed signal falls in the window". -/
theorem get_statistics_empty_window_counterexample :
    recent_completed {} 0 30 = [] ∧
    (get_statistics {} 0 30).wins = none ∧
    (get_statistics {} 0 30).losses = none := by
  refine ⟨rfl, ?_, ?_⟩ <;> rfl

/-- Claim C8 (amended): `get_statistics days` aggregates exactly the
completed signals whose close time falls in the window (`total_signals` is
always that filter's length); when the window is non-empty the returned
record carries `wins` (count of `current_roi > 0`), `losses` (count of
`current_roi ≤ 0`), `wins + losses = total`, `win_rate = wins/total*100`,
`average_roi = total_roi/total` and `total_roi` the ROI sum; when the
window is empty the early return carries only zeros and omits the `wins`,
`losses` and `period_days` keys. -/
theorem get_statistics_spec (t : Tracker) (now : ℚ) (days : ℕ) :
    (get_statistics t now days).total_signals =
      (recent_completed t now days).length ∧
    (recent_completed t now days = [] →
      get_statistics t now days =
        { total_signals := 0, win_rate := 0, average_roi := 0,
          total_roi := 0 }) ∧
    (recent_completed t now days ≠ [] →
      (get_statistics t now days).wins =
        some ((recent_completed t now days).filter
          (fun s => decide (0 < s.current_roi))).length ∧
      (get_statistics t now days).losses =
        some ((recent_completed t now days).filter
          (fun s => decide (s.current_roi ≤ 0))).length ∧
      ((recent_completed t now days).filter
          (fun s => decide (0 < s.current_roi))).length +
        ((recent_completed t now days).filter
          (fun s => decide (s.current_roi ≤ 0))).length =
        (recent_completed t now days).length ∧
      (get_statistics t now days).win_rate =
        (((recent_completed t now days).filter
            (fun s => decide (0 < s.current_roi))).length : ℚ) /
          ((recent_completed t now days).length : ℚ) * 100 ∧
      (get_statistics t now days).total_roi =
        ((recent_completed t now days).map ROIMetrics.current_roi).sum ∧
      (get_statistics t now days).average_roi =
        (get_statistics t now days).total_roi /
          ((recent_completed t now days).length : ℚ) ∧
      (get_statistics t now days).period_days = some days) := by
  by_cases h : recent_completed t now days = []
  · rw [get_statistics, if_pos h]
    exact ⟨by rw [h]; rfl, fun _ => rfl, fun hc => absurd h hc⟩
  · rw [get_statistics, if_neg h]
    have hlen : 0 < (recent_completed t now days).length :=
      List.length_pos.mpr h
    refine ⟨rfl, fun hc => absurd hc h,
      fun _ => ⟨rfl, rfl, wins_add_losses _, ?_, rfl, rfl, rfl⟩⟩
    show (if 0 < (recent_completed t now days).length then _ else _) = _
    rw [if_pos hlen]

/-- Claim C8, witness: on a tracker holding one completed winning signal,
the statistics over a 30-day window count one signal with one win and no
loss. -/
theorem get_statistics_spec_witness :
    recent_completed sample_tracker_stats 0 30 ≠ [] ∧
    (get_statistics sample_tracker_stats 0 30).wins = some 1 ∧
    (get_statistics sample_tracker_stats 0 30).losses = some 0 := by
  have hne : recent_completed sample_tracker_stats 0 30 ≠ [] := by
    norm_num [recent_completed, sample_tracker_stats, sample_completed,
      sample_long, List.filter_cons]
  have h := (get_statistics_spec sample_tracker_stats 0 30).2.2 hne
  refine ⟨hne, ?_, ?_⟩
  · rw [h.1]
    norm_num [recent_completed, sample_tracker_stats, sample_completed,
      sample_long, List.filter_cons]
  · rw [h.2.1]
    norm_num [recent_completed, sample_tracker_stats, sample_completed,
      sample_long, List.filter_cons]

theorem threshold_of_event_tp1 (i : String) (p w : ℚ) :
    threshold_of_event (Event.tp_hit i "tp1" p w) =
      some ThresholdLevel.tp1 := rfl

theorem threshold_of_event_tp2 (i : String) (p w : ℚ) :
    threshold_of_event (Event.tp_hit i "tp2" p w) =
      some ThresholdLevel.tp2 := rfl

theorem threshold_of_event_tp3 (i : String) (p w : ℚ) :
    threshold_of_event (Event.tp_hit i "tp3" p w) =
      some ThresholdLevel.tp3 := rfl

theorem threshold_of_event_sl (i : String) (p l : ℚ) :
    threshold_of_event (Event.sl_hit i p l) =
      some ThresholdLevel.stop := rfl

/-- The event component of `update_signal_price` on a known id is the event
component of the per-metrics evaluation. -/
theorem update_signal_price_snd (t : Tracker) (now : ℚ)
    (signal_id : String) (price : ℚ) (m : ROIMetrics)
    (h : lookupA t.active_signals signal_id = some m) :
    (update_signal_price t now signal_id price).2 =
      (update_metrics_price t.cfg now price m).2 := by
  rw [update_signal_price, h]
  dsimp only
  split <;> rfl

/-- The event of one evaluator call against the spec-side priority rule:
with a nonzero entry price, the threshold event produced is exactly the
first eligible level (none if no level is eligible); and with no eligible
level, no event of any kind is produced (also for a zero entry price). -/
theorem update_metrics_price_priority (cfg : AllocConfig) (now price : ℚ)
    (m : ROIMetrics) :
    (m.entry_price ≠ 0 →
      threshold_of (update_metrics_price cfg now price m).2 =
        spec_first_eligible m price) ∧
    (spec_first_eligible m price = none →
      (update_metrics_price cfg now price m).2 = none) := by
  constructor
  · intro h
    rw [update_metrics_price, spec_first_eligible]
    split_ifs <;>
      simp_all [handle_tp_hit, handle_sl_hit, threshold_of,
        threshold_of_event_tp1, threshold_of_event_tp2,
        threshold_of_event_tp3, threshold_of_event_sl]
  · intro h
    rw [spec_first_eligible] at h
    rw [update_metrics_price]
    split_ifs at h ⊢ <;> simp_all

/-- Claim C1: a call to `update_signal_price` on an active signal produces
at most one event, and its threshold event (TP1/TP2/TP3/STOP) is exactly
the one for the highest-priority level whose hit flag is not yet set and
whose price condition holds (priority TP3 > TP2 > TP1 > STOP, comparisons
mirrored between LONG and SHORT); when no such level exists, no event at
all is produced. -/
theorem update_signal_price_priority_order (t : Tracker) (now : ℚ)
    (signal_id : String) (price : ℚ) (m : ROIMetrics)
    (h : lookupA t.active_signals signal_id = some m) :
    (m.entry_price ≠ 0 →
      threshold_of (update_signal_price t now signal_id price).2 =
        spec_first_eligible m price) ∧
    (spec_first_eligible m price = none →
      (update_signal_price t now signal_id price).2 = none) := by
  rw [update_signal_price_snd t now signal_id price m h]
  exact update_metrics_price_priority t.cfg now price m

/-- Claim C1, witness: a price of `125` against the fresh `sample_long`
satisfies both the TP1 and the TP2 condition; the produced threshold event
is the higher-priority TP2 and agrees with the spec-side selection rule. -/
theorem update_signal_price_priority_order_witness :
    threshold_of
        (update_signal_price sample_tracker_active 0 "BTCUSDT_1" 125).2 =
      spec_first_eligible sample_long 125 ∧
    spec_first_eligible sample_long 125 = some ThresholdLevel.tp2 := by
  constructor
  · exact (update_signal_price_priority_order sample_tracker_active 0
      "BTCUSDT_1" 125 sample_long
      (lookupA_insertA_self [] "BTCUSDT_1" sample_long)).1
      (by norm_num [sample_long])
  · norm_num [spec_first_eligible, sample_long]

/-! ### Claim C5 — the stop-loss fill closes the remaining fraction -/

/-- A record that has left the `"active"` status is never stepped again:
the tracker removed it from the active map when it was closed. -/
theorem run_path_closed (cfg : AllocConfig) (m : ROIMetrics)
    (ps : List ℚ) (h : m.status ≠ "active") :
    run_path cfg m ps = (m, []) := by
  induction ps with
  | nil => rfl
  | cons p ps ih =>
    rw [run_path, step_metrics, if_neg h, ih]
    rfl

theorem sl_event_fill (cfg : AllocConfig) (now price : ℚ)
    (m m' : ROIMetrics) (ev : Event) (h : m.entry_price ≠ 0)
    (heq : update_metrics_price cfg now price m = (m', some ev))
    (hsl : ∃ sid pr ls, ev = Event.sl_hit sid pr ls) :
    ∃ f : Fill, m'.fills = m.fills ++ [f] ∧ f.level = "stop_loss" ∧
      f.percentage = 1 - closed_percent cfg m ∧ m'.status = "stopped" := by
  obtain ⟨sid, pr, ls, rfl⟩ := hsl
  rw [update_metrics_price] at heq
  split_ifs at heq <;>
    (rw [Prod.mk.injEq] at heq
     obtain ⟨hm', hev⟩ := heq) <;>
    first
      | (simp [handle_tp_hit, h] at hev
         done)
      | (subst hm'
         exact ⟨{ level := "stop_loss", price := price,
                  percentage := 1 - closed_percent cfg m,
                  profit_percent :=
                    if m.direction = "long" then
                      (price - m.entry_price) / m.entry_price * 100
                    else
                      (m.entry_price - price) / m.entry_price * 100,
                  weighted_profit :=
                    (if m.direction = "long" then
                      (price - m.entry_price) / m.entry_price * 100
                    else
                      (m.entry_price - price) / m.entry_price * 100) *
                      (1 - closed_percent cfg m),
                  timestamp := now },
           by simp [handle_sl_hit, h, close_signal, closed_percent],
           rfl, rfl,
           by simp [handle_sl_hit, h, close_signal]⟩)

theorem sl_first_closes_all (cfg : AllocConfig) (now price : ℚ)
    (m : ROIMetrics) (hdir : m.direction = "long")
    (h : m.entry_price ≠ 0)
    (h1 : m.tp1_hit = false) (h2 : m.tp2_hit = false)
    (h3 : m.tp3_hit = false) (hsl : m.sl_hit = false)
    (hps : price ≤ m.stop_loss)
    (hp1 : price < m.tp1) (hp2 : price < m.tp2) (hp3 : price < m.tp3) :
    (update_metrics_price cfg now price m).2 =
      some (Event.sl_hit m.signal_id price
        ((price - m.entry_price) / m.entry_price * 100)) ∧
    (update_metrics_price cfg now price m).1.fills =
      m.fills ++
        [{ level := "stop_loss", price := price, percentage := 1,
           profit_percent := (price - m.entry_price) / m.entry_price * 100,
           weighted_profit := (price - m.entry_price) / m.entry_price * 100,
           timestamp := now }] ∧
    (update_metrics_price cfg now price m).1.status = "stopped" := by
  have n3 : ¬ m.tp3 ≤ price := not_le.mpr hp3
  have n2 : ¬ m.tp2 ≤ price := not_le.mpr hp2
  have n1 : ¬ m.tp1 ≤ price := not_le.mpr hp1
  refine ⟨?_, ?_, ?_⟩ <;>
    simp [update_metrics_price, hdir, n3, n2, n1, hsl, hps, handle_sl_hit,
      h, close_signal, closed_percent, h1, h2, h3]

/-- Claim C5 (amended): for every signal with a nonzero entry price, a
fired stop-loss event appends a fill whose `position_fraction` is exactly
the remaining open fraction, `1` minus the configured allocations of the
take-profit levels whose hit flags are set, and moves the signal to
`"stopped"`; in particular, when the stop is reached before any target
(LONG, price at or below the stop and strictly below every target), exactly
one STOP event fires, its fill closes `100%` of the position, and no
further event is ever produced for that signal.  (The nonzero-entry
hypothesis is forced by the counterexample: with `entry_price = 0` the
handler returns an error dictionary instead of a STOP event.) -/
theorem stop_loss_closes_remaining_fraction :
    (∀ (cfg : AllocConfig) (now price : ℚ) (m m' : ROIMetrics)
      (ev : Event), m.entry_price ≠ 0 →
      update_metrics_price cfg now price m = (m', some ev) →
      (∃ sid pr ls, ev = Event.sl_hit sid pr ls) →
      ∃ f : Fill, m'.fills = m.fills ++ [f] ∧ f.level = "stop_loss" ∧
        f.percentage = 1 - closed_percent cfg m ∧ m'.status = "stopped") ∧
    (∀ (cfg : AllocConfig) (now price : ℚ) (m : ROIMetrics),
      m.direction = "long" → m.entry_price ≠ 0 →
      m.tp1_hit = false → m.tp2_hit = false → m.tp3_hit = false →
      m.sl_hit = false → price ≤ m.stop_loss →
      price < m.tp1 → price < m.tp2 → price < m.tp3 →
      (update_metrics_price cfg now price m).2 =
        some (Event.sl_hit m.signal_id price
          ((price - m.entry_price) / m.entry_price * 100)) ∧
      (update_metrics_price cfg now price m).1.fills =
        m.fills ++
          [{ level := "stop_loss", price := price, percentage := 1,
             profit_percent := (price - m.entry_price) / m.entry_price * 100,
             weighted_profit := (price - m.entry_price) / m.entry_price * 100,
             timestamp := now }] ∧
      (update_metrics_price cfg now price m).1.status = "stopped" ∧
      (∀ ps : List ℚ,
        (run_path cfg (update_metrics_price cfg now price m).1 ps).2 =
          [])) := by
  refine ⟨sl_event_fill, ?_⟩
  intro cfg now price m hdir h h1 h2 h3 hsl hps hp1 hp2 hp3
  obtain ⟨he, hf, hst⟩ := sl_first_closes_all cfg now price m hdir h h1 h2
    h3 hsl hps hp1 hp2 hp3
  refine ⟨he, hf, hst, fun ps => ?_⟩
  rw [run_path_closed cfg _ ps (by rw [hst]; decide)]

/-- Claim C5, counterexample: `sample_zero_entry` (a LONG signal the
tracker accepts, with `entry_price = 0`) at price `5` hits the stop
(`5 ≤ stop_loss = 10`) before any target (`5` is below tp1/tp2/tp3 and no
flag is set), yet the call produces an `error` dictionary instead of a
STOP event, appends no fill, and leaves the signal `"active"` — refuting
"exactly one STOP event fires and it closes 100% of the position". -/
theorem stop_loss_zero_entry_counterexample :
    sample_zero_entry.tp1_hit = false ∧ sample_zero_entry.tp2_hit = false ∧
    sample_zero_entry.tp3_hit = false ∧ sample_zero_entry.sl_hit = false ∧
    (5 : ℚ) ≤ sample_zero_entry.stop_loss ∧
    (5 : ℚ) < sample_zero_entry.tp1 ∧
    (update_metrics_price default_cfg 0 5 sample_zero_entry).2 =
      some (Event.error_event "ZERO_1" "entry_price_zero") ∧
    (update_metrics_price default_cfg 0 5 sample_zero_entry).1.fills =
      [] ∧
    (update_metrics_price default_cfg 0 5 sample_zero_entry).1.status =
      "active" := by
  refine ⟨rfl, rfl, rfl, rfl, by norm_num [sample_zero_entry],
    by norm_num [sample_zero_entry], ?_, ?_, ?_⟩ <;>
    norm_num [update_metrics_price, handle_sl_hit, handle_tp_hit,
      calculate_current_roi, closed_roi, closed_percent, sample_zero_entry,
      default_cfg]

/-- Claim C5, witness: `sample_long` dropping straight to `89` (below the
stop `90`, below every target) fires one STOP event closing the full
position and is then silent on any further price path. -/
theorem stop_loss_closes_remaining_fraction_witness :
    (update_metrics_price default_cfg 0 89 sample_long).2 =
      some (Event.sl_hit "BTCUSDT_1" 89 ((89 - 100) / 100 * 100)) ∧
    (update_metrics_price default_cfg 0 89 sample_long).1.status =
      "stopped" ∧
    (run_path default_cfg
      (update_metrics_price default_cfg 0 89 sample_long).1 [85, 130]).2 =
      [] := by
  have h := stop_loss_closes_remaining_fraction.2 default_cfg 0 89
    sample_long rfl (by norm_num [sample_long]) rfl rfl rfl rfl
    (by norm_num [sample_long]) (by norm_num [sample_long])
    (by norm_num [sample_long]) (by norm_num [sample_long])
  exact ⟨by rw [h.1]; norm_num [sample_long], h.2.2.1, h.2.2.2 [85, 130]⟩

/-- Claim C10, counterexample: `no_targets_zero_def` is a LONG signal
registered without target levels, but because its entry price is `0` the
first update (price `3 ≥ 0`) sets `tp3_hit` and then returns the handler's
`error` dictionary: no TP3 event fires and the signal stays `"active"` in
the active set instead of closing as `"completed"`. -/
theorem register_without_targets_zero_entry_counterexample :
    no_targets_zero_def.tp1 = none ∧ no_targets_zero_def.tp2 = none ∧
    no_targets_zero_def.tp3 = none ∧
    no_targets_zero_def.direction = "long" ∧
    (update_signal_price reg_zero.1 0 reg_zero.2 3).2 =
      some (Event.error_event reg_zero.2 "entry_price_zero") ∧
    ((lookupA (update_signal_price reg_zero.1 0 reg_zero.2 3).1.active_signals
        reg_zero.2).map ROIMetrics.status) = some "active" := by
  refine ⟨rfl, rfl, rfl, rfl, ?_, ?_⟩ <;>
    norm_num [reg_zero, register_signal, update_signal_price,
      lookupA_insertA_self, update_metrics_price, handle_tp_hit,
      calculate_current_roi, closed_roi, closed_percent,
      no_targets_zero_def]

/-- Claim C10 (amended): `register_signal` stores `0` for each target
missing from the definition; consequently a LONG signal registered without
target levels and with a nonzero entry price fires a TP3 event on the
first update whose price is `≥ 0`, and is immediately closed with status
`"completed"` (removed from the active set, appended to the completed
archive).  (The nonzero-entry hypothesis is forced by the counterexample:
with `entry_price = 0` the handler produces an error dictionary and the
signal never closes.) -/
theorem register_without_targets_completes (t : Tracker) (now : ℤ)
    (now2 price : ℚ) (d : SignalDef) (hdir : d.direction = "long")
    (h1 : d.tp1 = none) (h2 : d.tp2 = none) (h3 : d.tp3 = none)
    (he : d.entry_price ≠ 0) (hp : 0 ≤ price) :
    ((lookupA (register_signal t now d).1.active_signals
        (register_signal t now d).2).map ROIMetrics.tp3) = some 0 ∧
    ((lookupA (register_signal t now d).1.active_signals
        (register_signal t now d).2).map ROIMetrics.tp1) = some 0 ∧
    ((lookupA (register_signal t now d).1.active_signals
        (register_signal t now d).2).map ROIMetrics.tp2) = some 0 ∧
    (update_signal_price (register_signal t now d).1 now2
        (register_signal t now d).2 price).2 =
      some (Event.tp_hit (register_signal t now d).2 "tp3" price
        ((price - d.entry_price) / d.entry_price * 100 *
          t.cfg.tp3_percentage)) ∧
    lookupA (update_signal_price (register_signal t now d).1 now2
        (register_signal t now d).2 price).1.active_signals
        (register_signal t now d).2 = none ∧
    ((update_signal_price (register_signal t now d).1 now2
        (register_signal t now d).2 price).1.completed_signals.map
      ROIMetrics.status) =
      (t.completed_signals.map ROIMetrics.status) ++ ["completed"] := by
  refine ⟨?_, ?_, ?_, ?_, ?_, ?_⟩ <;>
    simp [register_signal, update_signal_price, lookupA_insertA_self,
      lookupA_eraseA_self, update_metrics_price, handle_tp_hit,
      close_signal, hdir, h1, h2, h3, he, hp]

/-- Claim C10, witness: registering `no_targets_def` (entry `2`, no
targets) into an empty tracker and updating with price `3` fires the TP3
event and retires the signal as completed. -/
theorem register_without_targets_completes_witness :
    (update_signal_price (register_signal {} 0 no_targets_def).1 1
        (register_signal {} 0 no_targets_def).2 3).2 =
      some (Event.tp_hit (register_signal {} 0 no_targets_def).2 "tp3" 3
        ((3 - no_targets_def.entry_price) / no_targets_def.entry_price *
          100 * (Tracker.cfg {}).tp3_percentage)) ∧
    lookupA (update_signal_price (register_signal {} 0 no_targets_def).1 1
        (register_signal {} 0 no_targets_def).2 3).1.active_signals
        (register_signal {} 0 no_targets_def).2 = none := by
  have h := register_without_targets_completes {} 0 1 3 no_targets_def
    rfl rfl rfl rfl (by norm_num [no_targets_def]) (by norm_num)
  exact ⟨h.2.2.2.1, h.2.2.2.2.1⟩

theorem handle_tp_hit_entry (cfg : AllocConfig) (now : ℚ) (m : ROIMetrics)
    (lvl : String) (price : ℚ) :
    (handle_tp_hit cfg now m lvl price).1.entry_price = m.entry_price := by
  rw [handle_tp_hit]
  split_ifs <;> (try simp [close_signal]) <;> (try split_ifs) <;> rfl

theorem handle_sl_hit_entry (cfg : AllocConfig) (now : ℚ) (m : ROIMetrics)
    (price : ℚ) :
    (handle_sl_hit cfg now m price).1.entry_price = m.entry_price := by
  rw [handle_sl_hit]
  split_ifs <;> simp [close_signal]

set_option maxHeartbeats 1600000 in
theorem step_preserves_fills_inv (cfg : AllocConfig) (m : ROIMetrics)
    (p : ℚ) (h : fills_inv cfg m) :
    fills_inv cfg (step_metrics cfg m p).1 := by
  obtain ⟨he, hact, hslc, hstop⟩ := h
  rw [step_metrics]
  by_cases hst : m.status = "active"
  case neg => rw [if_neg hst]; exact ⟨he, hact, hslc, hstop⟩
  rw [if_pos hst]
  have hslf : m.sl_hit = false := by
    cases hsl : m.sl_hit
    · rfl
    · have := (hslc hsl).2
      rw [this] at hst
      exact absurd hst (by decide)
  have hfs : fills_percentage_sum m = closed_percent cfg m := hact hslf
  rw [update_metrics_price]
  split_ifs <;>
    refine ⟨by simpa [handle_tp_hit_entry, handle_sl_hit_entry] using he,
      fun hs => ?_, fun hs => ?_, fun hs => ?_⟩ <;>
      simp_all [handle_tp_hit, handle_sl_hit, close_signal,
        fills_percentage_sum, closed_percent, hslf] <;>
      (try ring) <;>
      (split_ifs at * <;> simp_all <;> try ring)

theorem run_path_fills_inv (cfg : AllocConfig) (m0 : ROIMetrics)
    (ps : List ℚ) (h : fills_inv cfg m0) :
    fills_inv cfg (run_path cfg m0 ps).1 := by
  induction ps generalizing m0 with
  | nil => exact h
  | cons p ps ih =>
    rw [run_path]
    exact ih (step_metrics cfg m0 p).1 (step_preserves_fills_inv cfg m0 p h)

/-- Claim C2, counterexample: a single tick that gaps straight to `tp3`
completes `sample_long` while its fills carry only the TP3 allocation
(`0.25`): at the terminal status `"completed"` the fill fractions sum to
`1/4`, not `1.0` — refuting "when the signal reaches a terminal status
(COMPLETED or STOPPED) the fills' fractions sum to exactly 1.0". -/
theorem fills_fraction_completed_counterexample :
    (run_path default_cfg sample_long [130]).1.status = "completed" ∧
    fills_percentage_sum (run_path default_cfg sample_long [130]).1 =
      1/4 ∧ ((1 : ℚ)/4 ≠ 1) := by
  refine ⟨?_, ?_, by norm_num⟩ <;>
    norm_num [run_path, step_metrics, update_metrics_price, handle_tp_hit,
      handle_sl_hit, close_signal, calculate_current_roi, closed_roi,
      closed_percent, fills_percentage_sum, sample_long, default_cfg] <;>
    decide

/-- Claim C2 (amended): for every signal with a nonzero entry price whose
tracking starts fresh (no fills, no flags set, active), every reachable
state satisfies: while the stop has not fired, the fill fractions plus the
open fraction `1 - closed_percent` (one minus the allocations of the hit
take-profit levels) sum to exactly `1`; when the state is `"stopped"` the
fill fractions sum to exactly `1`; but when the state is `"completed"` the
fill fractions sum only to the allocations of the hit levels — which
equals `1` exactly when all three targets were hit, and is less after a
gap straight through TP3 (see the counterexample). -/
theorem fills_fraction_invariant (cfg : AllocConfig) (m0 : ROIMetrics)
    (ps : List ℚ) (he : m0.entry_price ≠ 0) (hf : m0.fills = [])
    (h1 : m0.tp1_hit = false) (h2 : m0.tp2_hit = false)
    (h3 : m0.tp3_hit = false) (hsl : m0.sl_hit = false)
    (hst : m0.status = "active") :
    ((run_path cfg m0 ps).1.sl_hit = false →
      fills_percentage_sum (run_path cfg m0 ps).1 +
        (1 - closed_percent cfg (run_path cfg m0 ps).1) = 1) ∧
    ((run_path cfg m0 ps).1.status = "stopped" →
      fills_percentage_sum (run_path cfg m0 ps).1 = 1) ∧
    ((run_path cfg m0 ps).1.status = "completed" →
      fills_percentage_sum (run_path cfg m0 ps).1 =
        closed_percent cfg (run_path cfg m0 ps).1) := by
  have hinv0 : fills_inv cfg m0 := by
    refine ⟨he, fun _ => ?_, fun hs => ?_, fun hs => ?_⟩
    · simp [fills_percentage_sum, hf, closed_percent, h1, h2, h3]
    · rw [hsl] at hs
      exact absurd hs (by decide)
    · rw [hst] at hs
      exact absurd hs (by decide)
  obtain ⟨he', hact, hslc, hstop⟩ := run_path_fills_inv cfg m0 ps hinv0
  refine ⟨fun hs => by rw [hact hs]; ring, fun hs => (hslc (hstop hs)).1,
    fun hs => ?_⟩
  have hslf : (run_path cfg m0 ps).1.sl_hit = false := by
    cases hx : (run_path cfg m0 ps).1.sl_hit
    · rfl
    · have := (hslc hx).2
      rw [this] at hs
      exact absurd hs (by decide)
  exact hact hslf

/-- Claim C2, witness: `sample_long` over the path `105, 89` triggers no
target (`105` is below `tp1 = 110`) and then hits the stop at `89`; the
single stop fill closes the whole position and at the terminal `"stopped"`
state the fill fractions sum to exactly `1`. -/
theorem fills_fraction_invariant_witness :
    (run_path default_cfg sample_long [105, 89]).1.status = "stopped" ∧
    fills_percentage_sum (run_path default_cfg sample_long [105, 89]).1 =
      1 := by
  have hst : (run_path default_cfg sample_long [105, 89]).1.status =
      "stopped" := by
    norm_num [run_path, step_metrics, update_metrics_price, handle_tp_hit,
      handle_sl_hit, close_signal, calculate_current_roi, closed_roi,
      closed_percent, sample_long, default_cfg]
  exact ⟨hst, (fills_fraction_invariant default_cfg sample_long [105, 89]
    (by norm_num [sample_long]) rfl rfl rfl rfl rfl rfl).2.1 hst⟩

/-! ### Claim C7 — event order along a LONG price path -/

theorem run_path_append (cfg : AllocConfig) (m : ROIMetrics)
    (xs ys : List ℚ) :
    run_path cfg m (xs ++ ys) =
      ((run_path cfg (run_path cfg m xs).1 ys).1,
        (run_path cfg m xs).2 ++ (run_path cfg (run_path cfg m xs).1 ys).2)
    := by
  induction xs generalizing m with
  | nil => simp [run_path]
  | cons x xs ih =>
    simp only [List.cons_append, run_path, List.append_eq, ih,
      List.append_assoc]

/-- A run over prices that trigger no threshold leaves the events empty and
every field except `current_roi` unchanged (LONG). -/
theorem run_quiet (cfg : AllocConfig) (m : ROIMetrics) (ps : List ℚ)
    (hst : m.status = "active") (hdir : m.direction = "long")
    (hcond : ∀ p ∈ ps,
      (m.tp3_hit = true ∨ p < m.tp3) ∧ (m.tp2_hit = true ∨ p < m.tp2) ∧
      (m.tp1_hit = true ∨ p < m.tp1) ∧
      (m.sl_hit = true ∨ m.stop_loss < p)) :
    (run_path cfg m ps).2 = [] ∧
    (run_path cfg m ps).1.status = m.status ∧
    (run_path cfg m ps).1.direction = m.direction ∧
    (run_path cfg m ps).1.entry_price = m.entry_price ∧
    (run_path cfg m ps).1.stop_loss = m.stop_loss ∧
    (run_path cfg m ps).1.tp1 = m.tp1 ∧
    (run_path cfg m ps).1.tp2 = m.tp2 ∧
    (run_path cfg m ps).1.tp3 = m.tp3 ∧
    (run_path cfg m ps).1.tp1_hit = m.tp1_hit ∧
    (run_path cfg m ps).1.tp2_hit = m.tp2_hit ∧
    (run_path cfg m ps).1.tp3_hit = m.tp3_hit ∧
    (run_path cfg m ps).1.sl_hit = m.sl_hit ∧
    (run_path cfg m ps).1.signal_id = m.signal_id := by
  induction ps generalizing m with
  | nil =>
    exact ⟨rfl, rfl, rfl, rfl, rfl, rfl, rfl, rfl, rfl, rfl, rfl, rfl, rfl⟩
  | cons p ps ih =>
    obtain ⟨hc3, hc2, hc1, hcs⟩ := hcond p (List.mem_cons_self p ps)
    have c3 : ¬(m.tp3_hit = false ∧ m.tp3 ≤ p) := by
      rcases hc3 with hx | hx
      · exact fun hy => by rw [hx] at hy; exact Bool.noConfusion hy.1
      · exact fun hy => absurd hy.2 (not_le.mpr hx)
    have c2 : ¬(m.tp2_hit = false ∧ m.tp2 ≤ p) := by
      rcases hc2 with hx | hx
      · exact fun hy => by rw [hx] at hy; exact Bool.noConfusion hy.1
      · exact fun hy => absurd hy.2 (not_le.mpr hx)
    have c1 : ¬(m.tp1_hit = false ∧ m.tp1 ≤ p) := by
      rcases hc1 with hx | hx
      · exact fun hy => by rw [hx] at hy; exact Bool.noConfusion hy.1
      · exact fun hy => absurd hy.2 (not_le.mpr hx)
    have cs : ¬(m.sl_hit = false ∧ p ≤ m.stop_loss) := by
      rcases hcs with hx | hx
      · exact fun hy => by rw [hx] at hy; exact Bool.noConfusion hy.1
      · exact fun hy => absurd hy.2 (not_le.mpr hx)
    have hstep : step_metrics cfg m p =
        ({ m with current_roi := calculate_current_roi cfg m p }, none) := by
      rw [step_metrics, if_pos hst, update_metrics_price]
      simp [hdir, c3, c2, c1, cs]
    rw [run_path, hstep]
    exact ih { m with current_roi := calculate_current_roi cfg m p }
      hst hdir (fun q hq => hcond q (List.mem_cons_of_mem p hq))

/-- One tick in the TP1 band fires exactly the TP1 event (LONG, fresh
flags) and keeps the signal active. -/
theorem step_fire_tp1 (cfg : AllocConfig) (p : ℚ) (m : ROIMetrics)
    (hst : m.status = "active") (hdir : m.direction = "long")
    (he : m.entry_price ≠ 0) (h1 : m.tp1_hit = false)
    (h2 : m.tp2_hit = false) (h3 : m.tp3_hit = false)
    (hp1 : m.tp1 ≤ p) (hp2 : p < m.tp2) (hp3 : p < m.tp3) :
    (step_metrics cfg m p).2 = some (Event.tp_hit m.signal_id "tp1" p
      ((p - m.entry_price) / m.entry_price * 100 * cfg.tp1_percentage)) ∧
    (step_metrics cfg m p).1.status = "active" ∧
    (step_metrics cfg m p).1.direction = "long" ∧
    (step_metrics cfg m p).1.entry_price = m.entry_price ∧
    (step_metrics cfg m p).1.stop_loss = m.stop_loss ∧
    (step_metrics cfg m p).1.tp1 = m.tp1 ∧
    (step_metrics cfg m p).1.tp2 = m.tp2 ∧
    (step_metrics cfg m p).1.tp3 = m.tp3 ∧
    (step_metrics cfg m p).1.tp1_hit = true ∧
    (step_metrics cfg m p).1.tp2_hit = false ∧
    (step_metrics cfg m p).1.tp3_hit = false ∧
    (step_metrics cfg m p).1.sl_hit = m.sl_hit ∧
    (step_metrics cfg m p).1.signal_id = m.signal_id := by
  have n3 : ¬ m.tp3 ≤ p := not_le.mpr hp3
  have n2 : ¬ m.tp2 ≤ p := not_le.mpr hp2
  refine ⟨?_, ?_, ?_, ?_, ?_, ?_, ?_, ?_, ?_, ?_, ?_, ?_, ?_⟩ <;>
    simp [step_metrics, hst, update_metrics_price, hdir, n3, n2, h1, h2,
      h3, hp1, handle_tp_hit, he, close_signal, hdir]

/-- One tick in the TP2 band (TP3 not yet hit) fires exactly the TP2 event
and keeps the signal active. -/
theorem step_fire_tp2 (cfg : AllocConfig) (p : ℚ) (m : ROIMetrics)
    (hst : m.status = "active") (hdir : m.direction = "long")
    (he : m.entry_price ≠ 0) (h2 : m.tp2_hit = false)
    (h3 : m.tp3_hit = false) (hp2 : m.tp2 ≤ p) (hp3 : p < m.tp3) :
    (step_metrics cfg m p).2 = some (Event.tp_hit m.signal_id "tp2" p
      ((p - m.entry_price) / m.entry_price * 100 * cfg.tp2_percentage)) ∧
    (step_metrics cfg m p).1.status = "active" ∧
    (step_metrics cfg m p).1.direction = "long" ∧
    (step_metrics cfg m p).1.entry_price = m.entry_price ∧
    (step_metrics cfg m p).1.stop_loss = m.stop_loss ∧
    (step_metrics cfg m p).1.tp1 = m.tp1 ∧
    (step_metrics cfg m p).1.tp2 = m.tp2 ∧
    (step_metrics cfg m p).1.tp3 = m.tp3 ∧
    (step_metrics cfg m p).1.tp1_hit = m.tp1_hit ∧
    (step_metrics cfg m p).1.tp2_hit = true ∧
    (step_metrics cfg m p).1.tp3_hit = false ∧
    (step_metrics cfg m p).1.sl_hit = m.sl_hit ∧
    (step_metrics cfg m p).1.signal_id = m.signal_id := by
  have n3 : ¬ m.tp3 ≤ p := not_le.mpr hp3
  refine ⟨?_, ?_, ?_, ?_, ?_, ?_, ?_, ?_, ?_, ?_, ?_, ?_, ?_⟩ <;>
    simp [step_metrics, hst, update_metrics_price, hdir, n3, h2, h3, hp2,
      handle_tp_hit, he, close_signal]

/-- One tick at or above TP3 fires exactly the TP3 event and completes the
signal. -/
theorem step_fire_tp3 (cfg : AllocConfig) (p : ℚ) (m : ROIMetrics)
    (hst : m.status = "active") (hdir : m.direction = "long")
    (he : m.entry_price ≠ 0) (h3 : m.tp3_hit = false)
    (hp3 : m.tp3 ≤ p) :
    (step_metrics cfg m p).2 = some (Event.tp_hit m.signal_id "tp3" p
      ((p - m.entry_price) / m.entry_price * 100 * cfg.tp3_percentage)) ∧
    (step_metrics cfg m p).1.status = "completed" := by
  refine ⟨?_, ?_⟩ <;>
    simp [step_metrics, hst, update_metrics_price, hdir, h3, hp3,
      handle_tp_hit, he, close_signal]

/-- Claim C7, counterexample: the tick sequence `95, 125, 135` is
monotonically increasing and crosses `entry 100 < tp1 110 < tp2 120 <
tp3 130` of `sample_long`, yet feeding it tick by tick produces the events
`TP2, TP3`: TP1 never fires (the `95 → 125` jump gaps over the TP1 band
and the evaluator reports only the highest satisfied level) — refuting
"fires each of TP1, TP2 and TP3 exactly once, in that order". -/
theorem gap_path_skips_tp1_counterexample :
    ((95:ℚ) ≤ 125 ∧ (125:ℚ) ≤ 135) ∧
    (sample_long.stop_loss < 95 ∧ (95:ℚ) < sample_long.tp1) ∧
    sample_long.tp3 ≤ 135 ∧
    ((run_path default_cfg sample_long [95, 125, 135]).2.map event_tag) =
      ["tp2", "tp3"] := by
  refine ⟨⟨by norm_num, by norm_num⟩, ⟨by norm_num [sample_long],
    by norm_num [sample_long]⟩, by norm_num [sample_long], ?_⟩
  norm_num [run_path, step_metrics, update_metrics_price, handle_tp_hit,
    handle_sl_hit, close_signal, calculate_current_roi, closed_roi,
    closed_percent, sample_long, default_cfg, event_tag] <;> decide

/-- Claim C7 (amended): along any LONG tick sequence that stays strictly
above the stop and passes through each target band in order — an optional
prefix `a` below TP1, a tick `pb` in `[tp1, tp2)`, ticks `b` below TP2, a
tick `pc` in `[tp2, tp3)`, ticks `c` below TP3, then a tick `pd ≥ tp3`
followed by anything — the evaluator fires exactly the events TP1, TP2,
TP3, in that order (no STOP, no repetition), and the signal ends
`"completed"`.  In particular this covers every monotonically increasing
path with at least one tick in each band; the counterexample shows the
original claim fails for increasing paths that gap over a band. -/
theorem banded_path_fires_in_order (cfg : AllocConfig) (m : ROIMetrics)
    (a b c d : List ℚ) (pb pc pd : ℚ)
    (hst : m.status = "active") (hdir : m.direction = "long")
    (he : m.entry_price ≠ 0) (h1 : m.tp1_hit = false)
    (h2 : m.tp2_hit = false) (h3 : m.tp3_hit = false)
    (hsl : m.sl_hit = false)
    (ht12 : m.tp1 < m.tp2) (ht23 : m.tp2 < m.tp3)
    (ha : ∀ p ∈ a, m.stop_loss < p ∧ p < m.tp1)
    (hpb1 : m.tp1 ≤ pb) (hpb2 : pb < m.tp2)
    (hb : ∀ p ∈ b, m.stop_loss < p ∧ p < m.tp2)
    (hpc1 : m.tp2 ≤ pc) (hpc2 : pc < m.tp3)
    (hc : ∀ p ∈ c, m.stop_loss < p ∧ p < m.tp3)
    (hpd : m.tp3 ≤ pd) :
    ((run_path cfg m
        (a ++ (pb :: (b ++ (pc :: (c ++ (pd :: d))))))).2.map
      event_tag) = ["tp1", "tp2", "tp3"] ∧
    (run_path cfg m
        (a ++ (pb :: (b ++ (pc :: (c ++ (pd :: d))))))).1.status =
      "completed" := by
  -- segment `a`: quiet below TP1
  have qa := run_quiet cfg m a hst hdir (fun p hp =>
    ⟨Or.inr (lt_trans (lt_trans (ha p hp).2 ht12) ht23),
     Or.inr (lt_trans (ha p hp).2 ht12), Or.inr (ha p hp).2,
     Or.inr (ha p hp).1⟩)
  rw [run_path_append, qa.1, List.nil_append, run_path]
  set M1 := (run_path cfg m a).1 with hM1
  -- the tick `pb`: TP1 fires
  have f1 := step_fire_tp1 cfg pb M1 (qa.2.1.trans hst)
    (qa.2.2.1.trans hdir) (by rw [qa.2.2.2.1]; exact he)
    (qa.2.2.2.2.2.2.2.2.1.trans h1) (qa.2.2.2.2.2.2.2.2.2.1.trans h2)
    (qa.2.2.2.2.2.2.2.2.2.2.1.trans h3)
    (by rw [qa.2.2.2.2.2.1]; exact hpb1)
    (by rw [qa.2.2.2.2.2.2.1]; exact hpb2)
    (by rw [qa.2.2.2.2.2.2.2.1]; exact lt_trans hpb2 ht23)
  rw [f1.1]
  set M2 := (step_metrics cfg M1 pb).1 with hM2
  have e2p : M2.stop_loss = m.stop_loss := by
    rw [f1.2.2.2.2.1, qa.2.2.2.2.1]
  have e2t1 : M2.tp1 = m.tp1 := by rw [f1.2.2.2.2.2.1, qa.2.2.2.2.2.1]
  have e2t2 : M2.tp2 = m.tp2 := by
    rw [f1.2.2.2.2.2.2.1, qa.2.2.2.2.2.2.1]
  have e2t3 : M2.tp3 = m.tp3 := by
    rw [f1.2.2.2.2.2.2.2.1, qa.2.2.2.2.2.2.2.1]
  have e2sl : M2.sl_hit = false := by
    rw [f1.2.2.2.2.2.2.2.2.2.2.2.1, qa.2.2.2.2.2.2.2.2.2.2.2.1, hsl]
  -- segment `b`: quiet below TP2 with TP1 already hit
  have qb := run_quiet cfg M2 b f1.2.1 f1.2.2.1 (fun p hp =>
    ⟨Or.inr (by rw [e2t3]; exact lt_trans (hb p hp).2 ht23),
     Or.inr (by rw [e2t2]; exact (hb p hp).2),
     Or.inl f1.2.2.2.2.2.2.2.2.1,
     Or.inr (by rw [e2p]; exact (hb p hp).1)⟩)
  rw [run_path_append, qb.1, List.nil_append, run_path]
  set M3 := (run_path cfg M2 b).1 with hM3
  -- the tick `pc`: TP2 fires
  have f2 := step_fire_tp2 cfg pc M3 (qb.2.1.trans f1.2.1)
    (qb.2.2.1.trans f1.2.2.1)
    (by rw [qb.2.2.2.1, f1.2.2.2.1]; exact (by rw [qa.2.2.2.1]; exact he))
    (by rw [qb.2.2.2.2.2.2.2.2.2.1]; exact f1.2.2.2.2.2.2.2.2.2.1)
    (by rw [qb.2.2.2.2.2.2.2.2.2.2.1]; exact f1.2.2.2.2.2.2.2.2.2.2.1)
    (by rw [qb.2.2.2.2.2.2.1, e2t2]; exact hpc1)
    (by rw [qb.2.2.2.2.2.2.2.1, e2t3]; exact hpc2)
  rw [f2.1]
  set M4 := (step_metrics cfg M3 pc).1 with hM4
  have e4p : M4.stop_loss = m.stop_loss := by
    rw [f2.2.2.2.2.1, qb.2.2.2.2.1, e2p]
  have e4t3 : M4.tp3 = m.tp3 := by
    rw [f2.2.2.2.2.2.2.2.1, qb.2.2.2.2.2.2.2.1, e2t3]
  have e4t1h : M4.tp1_hit = true := by
    rw [f2.2.2.2.2.2.2.2.2.1, qb.2.2.2.2.2.2.2.2.1]
    exact f1.2.2.2.2.2.2.2.2.1
  have e4sl : M4.sl_hit = false := by
    rw [f2.2.2.2.2.2.2.2.2.2.2.2.1, qb.2.2.2.2.2.2.2.2.2.2.2.1, e2sl]
  -- segment `c`: quiet below TP3 with TP1 and TP2 hit
  have qc := run_quiet cfg M4 c f2.2.1 f2.2.2.1 (fun p hp =>
    ⟨Or.inr (by rw [e4t3]; exact (hc p hp).2),
     Or.inl f2.2.2.2.2.2.2.2.2.2.1, Or.inl e4t1h,
     Or.inr (by rw [e4p]; exact (hc p hp).1)⟩)
  rw [run_path_append, qc.1, List.nil_append, run_path]
  set M5 := (run_path cfg M4 c).1 with hM5
  -- the tick `pd`: TP3 fires and completes the signal
  have f3 := step_fire_tp3 cfg pd M5 (qc.2.1.trans f2.2.1)
    (qc.2.2.1.trans f2.2.2.1)
    (by rw [qc.2.2.2.1, f2.2.2.2.1, qb.2.2.2.1, f1.2.2.2.1,
        qa.2.2.2.1]; exact he)
    (by rw [qc.2.2.2.2.2.2.2.2.2.2.1]
        exact f2.2.2.2.2.2.2.2.2.2.2.1)
    (by rw [qc.2.2.2.2.2.2.2.1, e4t3]; exact hpd)
  rw [f3.1]
  set M6 := (step_metrics cfg M5 pd).1 with hM6
  -- segment `d`: the signal is retired, nothing fires
  have hclosed : M6.status ≠ "active" := by
    rw [f3.2]
    decide
  rw [run_path_closed cfg M6 d hclosed]
  exact ⟨by simp [event_tag], f3.2⟩

/-- Claim C7, witness: the banded path `95; 115; 125; 135` over
`sample_long` fires TP1, TP2, TP3 exactly once each, in order, and
completes the signal. -/
theorem banded_path_fires_in_order_witness :
    ((run_path default_cfg sample_long [95, 115, 125, 135]).2.map
      event_tag) = ["tp1", "tp2", "tp3"] ∧
    (run_path default_cfg sample_long [95, 115, 125, 135]).1.status =
      "completed" := by
  have h := banded_path_fires_in_order default_cfg sample_long [95] [] []
    [] 115 125 135 rfl rfl (by norm_num [sample_long]) rfl rfl rfl rfl
    (by norm_num [sample_long]) (by norm_num [sample_long])
    (by intro p hp
        rcases List.mem_singleton.mp hp with rfl
        norm_num [sample_long])
    (by norm_num [sample_long]) (by norm_num [sample_long])
    (by intro p hp; exact absurd hp (List.not_mem_nil p))
    (by norm_num [sample_long]) (by norm_num [sample_long])
    (by intro p hp; exact absurd hp (List.not_mem_nil p))
    (by norm_num [sample_long])
  simpa using h

end GioRoi
